import Mathlib

/-!
Verification development for the `multiply-core` observation pipeline.

This file gives a shallow embedding, in Lean 4, of the parts of the
repository that the checked properties are about:

* `multiply_core/observations/s2_observations.py`
  (`_get_uncertainty`, `_prepare_band_emulators`, `S2Observations`:
  `_get_raw_band_data`, `get_band_data`, `get_band_data_by_name`,
  `set_no_data_value`, `read_granule`, plus the creator's `can_read`);
* `multiply_core/util/reproject.py`
  (`transform_coordinates`, `get_target_resolutions`, `_get_dist_measure`,
  `_need_to_sample_up`, `_get_resampling`, `Reprojection`).

Numeric values are embedded as rationals (`ℚ`).  A numpy float division
by zero yields `inf`; the wrapper type `NPVal` records whether a value is
finite or the infinity produced by such a division.  Raster access,
coordinate transformations and the auxiliary data provider are external
collaborators; they are modelled as explicit function parameters / fields,
so the embedded functions stay total and executable.
-/

namespace MultiplyCore

/-- Result of a numpy floating-point computation that may be the infinity
produced by a division by zero: either a finite rational or `inf`. -/
inductive NPVal where
  | fin (q : ℚ)
  | inf
  deriving DecidableEq, Repr

/-- Exceptions a modelled Python function can raise. -/
inductive PyError where
  | valueError
  | indexError
  | keyError
  deriving DecidableEq, Repr

instance {ε α : Type} [DecidableEq ε] [DecidableEq α] : DecidableEq (Except ε α) := fun a b =>
  match a, b with
  | .error e, .error f =>
    if h : e = f then isTrue (congrArg Except.error h)
    else isFalse (fun hh => h (Except.error.inj hh))
  | .error _, .ok _ => isFalse (fun hh => Except.noConfusion hh)
  | .ok _, .error _ => isFalse (fun hh => Except.noConfusion hh)
  | .ok x, .ok y =>
    if h : x = y then isTrue (congrArg Except.ok h)
    else isFalse (fun hh => h (Except.ok.inj hh))

/-- Model of `BAND_NAMES` from `s2_observations.py` (line 19): the fixed ordered list
of canonical band file names. -/
def BAND_NAMES : List String :=
  ["B02_sur.tif", "B03_sur.tif", "B04_sur.tif", "B05_sur.tif", "B06_sur.tif",
   "B07_sur.tif", "B08_sur.tif", "B8A_sur.tif", "B09_sur.tif", "B12_sur.tif",
   "B01_sur.tif", "B10_sur.tif", "B11_sur.tif"]

/-- Model of `NO_DATA_VALUES = [0.0] * len(BAND_NAMES)` (line 21). -/
def NO_DATA_VALUES : List ℚ := List.replicate BAND_NAMES.length 0

/-- Model of `EMULATOR_BAND_MAP` (line 18). -/
def EMULATOR_BAND_MAP : List ℕ := [2, 3, 4, 5, 6, 7, 8, 9, 12, 13]

/-- Model of `BAND_PROB_THRESHOLD` (line 22). -/
def BAND_PROB_THRESHOLD : ℚ := 5

/-- Reciprocal of the square of a numpy float: `1. / q ** 2`.  numpy turns
the division by zero into `inf` (with a runtime warning); every other
input gives the finite rational `1 / q²`. -/
def npRecipSq (q : ℚ) : NPVal :=
  if q = 0 then NPVal.inf else NPVal.fin (1 / q ^ 2)

/-- A scipy sparse matrix of shape `n × n` that was created empty (all
zeros) and then had its main diagonal set (`lil_matrix((n, n))` followed by
`setdiag`): it is determined by its size and the list of diagonal values. -/
structure DiagMat where
  n : ℕ
  diag : List NPVal
  deriving DecidableEq, Repr

/-- Entry `(i, j)` of such a matrix: the recorded diagonal value on the
main diagonal, zero everywhere else. -/
def DiagMat.entry (M : DiagMat) (i j : ℕ) : NPVal :=
  if i = j then M.diag.getD i (NPVal.fin 0) else NPVal.fin 0

/-- Model of `r_mat` of `_get_uncertainty` (lines 85-86): multiply the reflectance
by `0.05` elementwise, then overwrite the entries where the mask is false
with `0`. -/
def rMatList (rho : List ℚ) (mask : List Bool) : List ℚ :=
  List.zipWith (fun v b => if b then v * (5 / 100) else 0) rho mask

/-- Model of `_get_uncertainty` (lines 84-90): an `n × n` sparse matrix, `n` the
number of pixels of the flattened mask, whose diagonal is
`1. / (r_mat.ravel()) ** 2`. -/
def getUncertainty (rho : List ℚ) (mask : List Bool) : DiagMat :=
  { n := mask.length, diag := (rMatList rho mask).map npRecipSq }

/-- The state of an `S2Observations` instance as far as band retrieval is
concerned.  `rawByName` stands for `_get_raw_band_data_from_name`: the
flattened pixels that the raster engine (including the optional
reprojection) delivers for a band file name.  `bandEmulators` models the
dictionary `self._band_emulators` (`none` when no emulator folder was
given); emulator handles are opaque and modelled as natural numbers. -/
structure S2ObsModel where
  rawByName : String → List ℚ
  noDataValues : List ℚ
  metaData : List (String × ℚ)
  bandEmulators : Option (String → Option ℕ)

/-- The Python format expression `"S2A_MSI_{:02d}".format(b)` (line 212). -/
def s2BandKey (b : ℕ) : String :=
  "S2A_MSI_" ++ (if b < 10 then "0" ++ toString b else toString b)

/-- Model of `_get_raw_band_data` (lines 151-154): raise a `ValueError` when
`band_index > len(BAND_NAMES)`; otherwise read `BAND_NAMES[band_index]`,
which itself raises an `IndexError` when the index is out of range of the
13-element list. -/
def getRawBandData (m : S2ObsModel) (bandIndex : ℕ) : Except PyError (List ℚ) :=
  if bandIndex > BAND_NAMES.length then .error .valueError
  else
    match BAND_NAMES.get? bandIndex with
    | some name => .ok (m.rawByName name)
    | none => .error .indexError

/-- Model of `_get_band_emulator` (lines 210-214): `None` when no emulators are
loaded; otherwise look up the key built from
`EMULATOR_BAND_MAP[band_index]` in the emulator dictionary
(an out-of-range index raises `IndexError`, a missing key `KeyError`). -/
def getBandEmulator (m : S2ObsModel) (bandIndex : ℕ) : Except PyError (Option ℕ) :=
  match m.bandEmulators with
  | none => .ok none
  | some lookup =>
    match EMULATOR_BAND_MAP.get? bandIndex with
    | none => .error .indexError
    | some code =>
      match lookup (s2BandKey code) with
      | none => .error .keyError
      | some e => .ok (some e)

/-- Model of `ObservationData` as assembled by `get_band_data` (lines 206-207). -/
structure ObservationData where
  observations : List ℚ
  uncertainty : Option DiagMat
  mask : List Bool
  metaData : List (String × ℚ)
  emulator : Option ℕ
  deriving DecidableEq, Repr

/-- Model of `get_band_data` (lines 195-208): read the raw band, derive the mask as
`data > 0`, rescale valid pixels by `1/10000` and replace invalid pixels by
the band's configured no-data value, optionally build the uncertainty
matrix, attach metadata and the band emulator. -/
def getBandData (m : S2ObsModel) (bandIndex : ℕ) (retrieveUncertainty : Bool) :
    Except PyError ObservationData :=
  match getRawBandData m bandIndex with
  | .error e => .error e
  | .ok raw =>
    let mask := raw.map (fun v => decide (0 < v))
    let data := raw.map (fun v => if 0 < v then v / 10000 else m.noDataValues.getD bandIndex 0)
    let uncertainty := if retrieveUncertainty then some (getUncertainty data mask) else none
    match getBandEmulator m bandIndex with
    | .error e => .error e
    | .ok emu =>
      .ok { observations := data, uncertainty := uncertainty, mask := mask,
            metaData := m.metaData, emulator := emu }

/-- A list-of-characters version of Python's substring test: does the
second list start with the first one? -/
def subListAt : List Char → List Char → Bool
  | [], _ => true
  | _ :: _, [] => false
  | a :: as, b :: bs => a = b && subListAt as bs

/-- Python's `needle in haystack` on strings, over character lists. -/
def hasSub (needle : List Char) : List Char → Bool
  | [] => subListAt needle []
  | b :: bs => subListAt needle (b :: bs) || hasSub needle bs

/-- Python's `base in band_name` (substring containment, line 192). -/
def containsName (base s : String) : Bool := hasSub base.data s.data

/-- Index of the first list element satisfying `p`, if any. -/
def firstMatchIdx (p : α → Bool) : List α → Option ℕ
  | [] => none
  | x :: xs => if p x then some 0 else (firstMatchIdx p xs).map (· + 1)

/-- Model of `get_band_data_by_name` (lines 190-193): scan `BAND_NAMES` in order and
delegate to `get_band_data` at the first name contained in the argument;
when no name matches, the Python loop falls through and the method
implicitly returns `None`. -/
def getBandDataByName (m : S2ObsModel) (bandName : String) (retrieveUncertainty : Bool) :
    Option (Except PyError ObservationData) :=
  match firstMatchIdx (fun base => containsName base bandName) BAND_NAMES with
  | some i => some (getBandData m i retrieveUncertainty)
  | none => none

/-!
Embedding of `multiply_core/util/reproject.py`.

GDAL spatial reference systems and their coordinate transformations are an
external collaborator; a transformation between two reference systems is
modelled as a plain function on coordinate pairs.
-/

/-- A GDAL dataset as far as `_need_to_sample_up` consults it: its
geotransform (six coefficients). -/
structure DatasetModel where
  geoTransform : List ℚ

/-- Model of `get_target_resolutions` (lines 79-87): `(geo_transform[1],
-geo_transform[5])`. -/
def getTargetResolutions (d : DatasetModel) : ℚ × ℚ :=
  (d.geoTransform.getD 1 0, -d.geoTransform.getD 5 0)

/-- Model of `transform_coordinates` (lines 41-64): transform a flat sequence
`[x1, y1, x2, y2, ...]` point by point.  The gdal-3 axis-order swap in the
source restores `(x, y)` order, so the net effect of one point is one
application of the transformation `f`. -/
def transformCoordinates (f : ℚ × ℚ → ℚ × ℚ) : List ℚ → List ℚ
  | x :: y :: rest => (f (x, y)).1 :: (f (x, y)).2 :: transformCoordinates f rest
  | _ => []

/-- Model of `_get_dist_measure` (lines 156-161): per-axis extents of the first two
transformed points (`np.sqrt(np.square(v))` is `|v|`), each divided by the
axis resolution, multiplied. -/
def getDistMeasure (coords : List ℚ) (xRes yRes : ℚ) : ℚ :=
  (|coords.getD 0 0 - coords.getD 2 0| / xRes) * (|coords.getD 1 0 - coords.getD 3 0| / yRes)

/-- Model of `_need_to_sample_up` (lines 144-153).  `toSource` models the
coordinate transformation from the bounds reference system into the
dataset's own reference system, `toDest` the one into the destination
reference system. -/
def needToSampleUp (toSource toDest : ℚ × ℚ → ℚ × ℚ) (d : DatasetModel)
    (bounds : List ℚ) (xRes yRes : ℚ) : Bool :=
  let boundsInSource := transformCoordinates toSource bounds
  let sourceRes := getTargetResolutions d
  let sourceMeasure := getDistMeasure boundsInSource sourceRes.1 sourceRes.2
  let boundsInDest := transformCoordinates toDest bounds
  let destMeasure := getDistMeasure boundsInDest xRes yRes
  decide (destMeasure > sourceMeasure)

/-- Model of `_get_resampling` (lines 136-141): `'bilinear'` when sampling up,
otherwise `'average'`. -/
def getResampling (toSource toDest : ℚ × ℚ → ℚ × ℚ) (d : DatasetModel)
    (bounds : List ℚ) (xRes yRes : ℚ) : String :=
  if needToSampleUp toSource toDest d bounds xRes yRes then "bilinear" else "average"

/-- The resampling mode `Reprojection.reproject` (lines 178-190) passes to
the warp: the configured mode when one was set, otherwise the
auto-selected one. -/
def chosenResampling (configuredMode : Option String) (toSource toDest : ℚ × ℚ → ℚ × ℚ)
    (d : DatasetModel) (bounds : List ℚ) (xRes yRes : ℚ) : String :=
  match configuredMode with
  | some mode => mode
  | none => getResampling toSource toDest d bounds xRes yRes

/-- The density measure exactly as the specification words it: the product
over both axes of the bounds' axis-aligned extent in the given coordinate
system divided by that axis's resolution. -/
def specDensityMeasure (mappedBounds : List ℚ) (xRes yRes : ℚ) : ℚ :=
  (|mappedBounds.getD 0 0 - mappedBounds.getD 2 0| / xRes)
    * (|mappedBounds.getD 1 0 - mappedBounds.getD 3 0| / yRes)

/-!
Embedding of `_prepare_band_emulators` (lines 93-112).

The auxiliary data provider's sorted listing of the emulator folder is the
input; each listed file name carries an encoded `(vza, sza, raa)` triple
(the three trailing underscore-delimited tokens), which is the part of the
file name the algorithm consumes.
-/

/-- One catalog file of the emulator folder, by its encoded geometry. -/
structure EmuFile where
  vza : ℚ
  sza : ℚ
  raa : ℚ
  deriving DecidableEq, Repr

/-- Index of the first minimum of a list (`np.argmin`: ties resolve to the
earliest index). -/
def argminIdx : List ℚ → ℕ
  | [] => 0
  | [_] => 0
  | x :: y :: rest =>
    let r := argminIdx (y :: rest)
    if x ≤ (y :: rest).getD r 0 then 0 else r + 1

/-- The catalog value closest to `t` by absolute difference:
`vs[np.argmin(np.abs(vs - t))]` (lines 106-108). -/
def closestTo (t : ℚ) (vs : List ℚ) : ℚ :=
  vs.getD (argminIdx (vs.map (fun v => |v - t|))) 0

/-- First index `k ≤ j < k + fuel` with `p j = true`, scanning upward. -/
def firstFrom (p : ℕ → Bool) : ℕ → ℕ → Option ℕ
  | _, 0 => none
  | k, fuel + 1 => if p k then some k else firstFrom p (k + 1) fuel

/-- The conjunction `e1 * e2 * e3` of the three per-axis equality masks at
catalog position `j` (lines 106-109). -/
def satAt (files : List EmuFile) (sza vza raa : ℚ) (j : ℕ) : Bool :=
  decide ((files.map EmuFile.sza).getD j 0 = closestTo sza (files.map EmuFile.sza))
    && decide ((files.map EmuFile.vza).getD j 0 = closestTo vza (files.map EmuFile.vza))
    && decide ((files.map EmuFile.raa).getD j 0 = closestTo raa (files.map EmuFile.raa))

/-- Model of `_prepare_band_emulators` (lines 93-112): `None` when the folder
listing is empty; otherwise the target relative azimuth is `|vaa - saa|`
and the selected catalog index is `np.where(e1 * e2 * e3)[0][0]` — the
first position in the intersection of the three per-axis masks, an
`IndexError` when the intersection is empty.  The selected index stands
for the deserialized emulator, which is opaque here. -/
def prepareBandEmulators (files : List EmuFile) (sza saa vza vaa : ℚ) :
    Except PyError (Option ℕ) :=
  if files.length = 0 then .ok none
  else
    match firstFrom (satAt files sza vza (|vaa - saa|)) 0 files.length with
    | some i => .ok (some i)
    | none => .error .indexError

/-!
Embedding of `read_granule` (lines 229-264).

The 13 surface-reflectance rasters, the cloud-probability raster and the
two 2-band angle rasters are inputs; all rasters are flattened pixel
lists of one common shape.  `np.cos(np.deg2rad(x))` is an opaque
floating-point computation and is passed in as the function `cosdeg`.
Masked-out pixels are overwritten with `np.nan`, modelled as `none`.
-/

/-- The rasters `read_granule` reads. -/
structure GranuleInputs where
  cloud : List ℚ
  surBand : String → List ℚ
  saaBand : List ℚ
  szaBand : List ℚ
  vaaBand : List ℚ
  vzaBand : List ℚ

/-- The sextuple `read_granule` returns when there is usable data. -/
structure GranuleResult where
  rhoSurface : List (List (Option ℚ))
  mask : List Bool
  sza : ℚ
  vza : ℚ
  raa : ℚ
  rhoUnc : List (Option ℚ)

/-- Model of `band_map` (line 230). -/
def GRANULE_BAND_MAP : List String :=
  ["B01", "B02", "B03", "B04", "B05", "B06", "B07", "B08", "B8A", "B09", "B10", "B11", "B12"]

/-- Model of `sel_bands` (line 247). -/
def SEL_BANDS : List ℕ := [1, 2, 3, 4, 5, 6, 7, 8]

/-- Number of `True` pixels of a mask (`mask.sum()`). -/
def countTrue (mask : List Bool) : ℕ := (mask.filter id).length

/-- Model of `np.mean` of a flattened raster. -/
def meanQ (l : List ℚ) : ℚ := l.sum / l.length

/-- Model of `np.nanmean`: the mean of the non-`nan` entries, `nan` (here `none`)
when every entry is `nan`. -/
def nanmeanOpt (l : List (Option ℚ)) : Option ℚ :=
  let vs := l.filterMap id
  if vs.length = 0 then none else some (vs.sum / vs.length)

/-- Overwrite the pixels outside the mask with `nan` (`arr[~mask] = np.nan`). -/
def maskToNan (mask : List Bool) (l : List ℚ) : List (Option ℚ) :=
  List.zipWith (fun b v => if b then some v else none) mask l

/-- The initial cloud mask of `read_granule` (line 232):
`cloud_mask <= BAND_PROB_THRESHOLD`. -/
def granuleCloudMask (g : GranuleInputs) : List Bool :=
  g.cloud.map (fun p => decide (p ≤ BAND_PROB_THRESHOLD))

/-- The stacked scaled reflectance bands (lines 237-243). -/
def granuleRho (g : GranuleInputs) : List (List ℚ) :=
  GRANULE_BAND_MAP.map (fun b => (g.surBand b).map (fun v => v / 10000))

/-- The refined mask (lines 247-250): positivity over `sel_bands`
intersected with the cloud mask. -/
def granuleRefinedMask (g : GranuleInputs) : List Bool :=
  (List.range (granuleCloudMask g).length).map (fun j =>
    (SEL_BANDS.all fun i => decide (0 < ((granuleRho g).getD i []).getD j 0))
      && (granuleCloudMask g).getD j false)

/-- Model of `read_granule` (lines 229-264): `None` sextuple when the cloud mask or
the refined mask has no valid pixel; otherwise the masked reflectance
stack, the refined mask, the cosine geometry scalars and the per-band
`nanmean` uncertainty. -/
def readGranule (g : GranuleInputs) (cosdeg : ℚ → ℚ) : Option GranuleResult :=
  if countTrue (granuleCloudMask g) = 0 then none
  else
    let mask := granuleRefinedMask g
    if countTrue mask = 0 then none
    else
      let rhoUnc := GRANULE_BAND_MAP.map (fun b =>
        (g.surBand b).map (fun _ => (5 / 1000 : ℚ) / 10000))
      let rhoUncMasked := rhoUnc.map (maskToNan mask)
      let rhoSurfaceMasked := (granuleRho g).map (maskToNan mask)
      let sza := cosdeg (meanQ g.szaBand / 100)
      let vza := cosdeg (meanQ g.vzaBand / 100)
      let saa := meanQ g.saaBand / 100
      let vaa := meanQ g.vaaBand / 100
      some { rhoSurface := rhoSurfaceMasked, mask := mask, sza := sza, vza := vza,
             raa := cosdeg (vaa - saa), rhoUnc := rhoUncMasked.map nanmeanOpt }

/-!
Embedding of `S2Observations.__init__` (lines 117-141) and
`S2ObservationsCreator.can_read` (lines 269-275).

`data_validation.get_valid_type` and the two validators live outside the
embedded sources and are passed in as opaque functions.
-/

/-- A file reference (`multiply_core.util.FileRef`). -/
structure FileRef where
  url : String
  startTime : String
  endTime : String
  mimeType : String
  deriving DecidableEq, Repr

/-- The collaborators `__init__` consults. -/
structure S2InitEnv where
  validType : String → String
  hasMetadata : String → Bool

/-- The part of a constructed instance the homogeneity claim is about. -/
structure S2Instance where
  dataType : String
  deriving DecidableEq, Repr

/-- Model of `__init__` (lines 117-141): the data type is
`get_valid_type(file_refs[0].url)` — derived from the first reference
alone, with no homogeneity check over the remaining references; an empty
reference list raises an `IndexError`, a reference without a metadata file
a `ValueError` (line 149). -/
def s2Init (env : S2InitEnv) (fileRefs : List FileRef) : Except PyError S2Instance :=
  match fileRefs with
  | [] => .error .indexError
  | f0 :: _ =>
    if fileRefs.all (fun r => env.hasMetadata r.url) then .ok { dataType := env.validType f0.url }
    else .error .valueError

/-- Model of `S2ObservationsCreator.can_read` (lines 269-275): every reference must
be valid under the AWS-S2-L2 validator or under the S2-L2 validator — the
two validators need not agree across references. -/
def canRead (awsValid s2l2Valid : String → Bool) (fileRefs : List FileRef) : Bool :=
  fileRefs.all (fun r => awsValid r.url || s2l2Valid r.url)

/-!
Embedding of `set_no_data_value` (lines 224-227) together with the Python
object semantics of line 141, `self._no_data_values = NO_DATA_VALUES`:
the attribute is a *reference* to the module-level list, not a copy.  A
heap maps locations to list contents; every instance produced by
`__init__` holds the location of the one module-level `NO_DATA_VALUES`
list. -/

/-- The Python heap, restricted to the lists of no-data values. -/
structure PyHeap where
  cells : ℕ → List ℚ

/-- The heap location of the module-level list `NO_DATA_VALUES`. -/
def NDV_LOC : ℕ := 0

/-- The heap at module-load time: location `NDV_LOC` holds
`[0.0] * len(BAND_NAMES)`. -/
def initialHeap : PyHeap := { cells := fun _ => NO_DATA_VALUES }

/-- An `S2Observations` instance as far as the no-data table is concerned:
its object identity and the location its `_no_data_values` attribute
references. -/
structure S2Inst where
  objId : ℕ
  noDataLoc : ℕ
  deriving DecidableEq, Repr

/-- Line 141 of `__init__`: the fresh instance's `_no_data_values`
attribute references the module-level list. -/
def s2NewInst (objId : ℕ) : S2Inst := { objId := objId, noDataLoc := NDV_LOC }

/-- Model of `set_no_data_value` with an integer band (lines 224-227):
`self._no_data_values[band] = no_data_value`, an item assignment on the
referenced list. -/
def setNoDataValue (h : PyHeap) (inst : S2Inst) (band : ℕ) (v : ℚ) : PyHeap :=
  { cells := fun l => if l = inst.noDataLoc then (h.cells l).set band v else h.cells l }

/-- The no-data values an instance observes. -/
def readNoData (h : PyHeap) (inst : S2Inst) : List ℚ := h.cells inst.noDataLoc

/-! Concrete inputs used by counterexamples and witnesses. -/

/-- A single-pixel raster whose only pixel is invalid (raw value `0`):
the failing input of the uncertainty claim. -/
def cm1 : S2ObsModel :=
  { rawByName := fun s => if s = "B02_sur.tif" then [0] else [],
    noDataValues := NO_DATA_VALUES, metaData := [], bandEmulators := none }

/-- A two-pixel raster of constant raw value `10000` (scaled reflectance
`1`), every pixel valid. -/
def cm1valid : S2ObsModel :=
  { rawByName := fun s => if s = "B02_sur.tif" then [10000, 10000] else [],
    noDataValues := NO_DATA_VALUES, metaData := [], bandEmulators := none }

/-- An instance whose `B02` raster and `B03` raster hold different data. -/
def mdl7 : S2ObsModel :=
  { rawByName := fun s =>
      if s = "B02_sur.tif" then [10000] else if s = "B03_sur.tif" then [20000] else [],
    noDataValues := NO_DATA_VALUES, metaData := [], bandEmulators := none }

/-- A three-pixel instance exercising valid and invalid pixels. -/
def wm2 : S2ObsModel :=
  { rawByName := fun s => if s = "B02_sur.tif" then [10000, 0, 25] else [],
    noDataValues := NO_DATA_VALUES, metaData := [], bandEmulators := none }

/-- The observation record `get_band_data` produces on the three-pixel
instance `wm2` at band index 0 without uncertainty. -/
def wod2 : ObservationData :=
  { observations := [1, 0, 1 / 400], uncertainty := none, mask := [true, false, true],
    metaData := [], emulator := none }

/-- The emulator catalog of the end-to-end scenario:
`(vza, sza, raa) = (10, 20, 30), (10, 25, 35), (15, 20, 30)`. -/
def scenarioCatalog : List EmuFile :=
  [{ vza := 10, sza := 20, raa := 30 }, { vza := 10, sza := 25, raa := 35 },
   { vza := 15, sza := 20, raa := 30 }]

/-- Mixed-type construction input: two references whose detected product
types differ. -/
def env8 : S2InitEnv :=
  { validType := fun u => if u = "refA" then "aws_s2_l2" else "s2_l2",
    hasMetadata := fun _ => true }

/-- The two mixed-type file references. -/
def refs8 : List FileRef :=
  [{ url := "refA", startTime := "t0", endTime := "t1", mimeType := "unknown" },
   { url := "refB", startTime := "t0", endTime := "t1", mimeType := "unknown" }]

/-- AWS-S2-L2 validator accepting only the first reference of `refs8`. -/
def awsValid8 (u : String) : Bool := u = "refA"

/-- S2-L2 validator accepting only the second reference of `refs8`. -/
def s2l2Valid8 (u : String) : Bool := u = "refB"

/-! Helper lemmas about list access. -/

lemma getD_map_of_lt {α β : Type} (f : α → β) (l : List α) (i : ℕ) (d : β) (d' : α)
    (h : i < l.length) : (l.map f).getD i d = f (l.getD i d') := by
  induction l generalizing i with
  | nil => simp at h
  | cons x xs ih =>
    cases i with
    | zero => rfl
    | succ n =>
      simp only [List.map_cons, List.getD_cons_succ]
      exact ih n (by simpa using h)

lemma getD_of_get?_eq_some {α : Type} (l : List α) (i : ℕ) (a d : α)
    (h : l.get? i = some a) : l.getD i d = a := by
  induction l generalizing i with
  | nil => simp at h
  | cons x xs ih =>
    cases i with
    | zero => simp at h; simp [h]
    | succ n =>
      simp only [List.get?] at h
      simpa [List.getD_cons_succ] using ih n h

lemma firstMatchIdx_spec {α : Type} (p : α → Bool) (l : List α) (i : ℕ) (d : α)
    (h : firstMatchIdx p l = some i) :
    i < l.length ∧ p (l.getD i d) = true ∧ ∀ j, j < i → p (l.getD j d) = false := by
  induction l generalizing i with
  | nil => simp [firstMatchIdx] at h
  | cons x xs ih =>
    by_cases hp : p x
    · simp [firstMatchIdx, hp] at h
      subst h
      exact ⟨by simp, by simpa using hp, fun j hj => by omega⟩
    · simp [firstMatchIdx, hp] at h
      obtain ⟨k, hk, rfl⟩ := h
      obtain ⟨h1, h2, h3⟩ := ih k hk
      refine ⟨by simpa using h1, by simpa using h2, ?_⟩
      intro j hj
      cases j with
      | zero => simpa using hp
      | succ n => simpa using h3 n (by omega)

lemma getD_mem_of_lt {α : Type} (l : List α) (i : ℕ) (d : α) (h : i < l.length) :
    l.getD i d ∈ l := by
  induction l generalizing i with
  | nil => simp at h
  | cons x xs ih =>
    cases i with
    | zero => simp [List.getD_cons_zero]
    | succ n =>
      simp only [List.getD_cons_succ]
      exact List.mem_cons_of_mem x (ih n (by simpa using h))

lemma mem_exists_getD {α : Type} (l : List α) (a : α) (d : α) (h : a ∈ l) :
    ∃ i, i < l.length ∧ l.getD i d = a := by
  induction l with
  | nil => simp at h
  | cons x xs ih =>
    rcases List.mem_cons.mp h with rfl | hmem
    · exact ⟨0, by simp, rfl⟩
    · obtain ⟨i, hi, hget⟩ := ih hmem
      exact ⟨i + 1, by simpa using hi, by simpa using hget⟩

lemma argminIdx_lt (l : List ℚ) (h : l ≠ []) : argminIdx l < l.length := by
  induction l with
  | nil => simp at h
  | cons x xs ih =>
    cases xs with
    | nil => simp [argminIdx]
    | cons y rest =>
      rw [argminIdx]
      split
      · simp
      · have := ih (by simp)
        simpa using Nat.succ_lt_succ this

lemma argminIdx_min (l : List ℚ) (j : ℕ) (hj : j < l.length) :
    l.getD (argminIdx l) 0 ≤ l.getD j 0 := by
  induction l generalizing j with
  | nil => simp at hj
  | cons x xs ih =>
    cases xs with
    | nil =>
      cases j with
      | zero => simp [argminIdx]
      | succ n => simp at hj
    | cons y rest =>
      rw [argminIdx]
      split
      · rename_i hle
        cases j with
        | zero => simp
        | succ n =>
          simp only [List.getD_cons_zero, List.getD_cons_succ]
          exact le_trans hle (ih n (by simpa using hj))
      · rename_i hgt
        push_neg at hgt
        cases j with
        | zero =>
          simpa [List.getD_cons_succ] using le_of_lt hgt
        | succ n =>
          simpa [List.getD_cons_succ] using ih n (by simpa using hj)

lemma closestTo_spec (t : ℚ) (vs : List ℚ) (h : vs ≠ []) :
    closestTo t vs ∈ vs ∧ ∀ v ∈ vs, |closestTo t vs - t| ≤ |v - t| := by
  have hmapne : vs.map (fun v => |v - t|) ≠ [] := by simpa using h
  have hlt : argminIdx (vs.map (fun v => |v - t|)) < vs.length := by
    simpa using argminIdx_lt _ hmapne
  constructor
  · exact getD_mem_of_lt vs _ 0 hlt
  · intro v hv
    obtain ⟨j, hj, rfl⟩ := mem_exists_getD vs v 0 hv
    have hmin := argminIdx_min (vs.map (fun v => |v - t|)) j (by simpa using hj)
    rw [getD_map_of_lt _ _ _ _ 0 (by simpa using hlt),
        getD_map_of_lt _ _ _ _ 0 (by simpa using hj)] at hmin
    simpa [closestTo] using hmin

lemma firstFrom_eq_some (p : ℕ → Bool) (fuel : ℕ) :
    ∀ k i, (firstFrom p k fuel = some i ↔
      (k ≤ i ∧ i < k + fuel ∧ p i = true ∧ ∀ j, k ≤ j → j < i → p j = false)) := by
  induction fuel with
  | zero =>
    intro k i
    rw [firstFrom]
    constructor
    · intro h
      cases h
    · rintro ⟨h1, h2, -⟩
      omega
  | succ n ih =>
    intro k i
    rw [firstFrom]
    by_cases hp : p k
    · simp only [hp, if_true]
      constructor
      · rintro h
        injection h with h
        subst h
        exact ⟨le_refl k, by omega, hp, fun j h1 h2 => by omega⟩
      · rintro ⟨h1, h2, h3, h4⟩
        by_cases hik : i = k
        · simp [hik]
        · have := h4 k (le_refl k) (by omega)
          rw [hp] at this
          cases this
    · rw [if_neg hp, ih (k + 1) i]
      constructor
      · rintro ⟨h1, h2, h3, h4⟩
        refine ⟨by omega, by omega, h3, fun j hj1 hj2 => ?_⟩
        by_cases hjk : j = k
        · subst hjk
          simpa using hp
        · exact h4 j (by omega) hj2
      · rintro ⟨h1, h2, h3, h4⟩
        have hik : i ≠ k := fun hik => hp (hik ▸ h3)
        exact ⟨by omega, by omega, h3, fun j hj1 hj2 => h4 j (by omega) hj2⟩

/-- Claim C10: the invalid-band-index guard of `_get_raw_band_data` raises
its `ValueError` exactly for `band_index` strictly greater than the number
of canonical band names, 13; `band_index = 13` passes the guard even
though the valid positions of the band-name table are 0 through 12, so
the subsequent `BAND_NAMES[13]` lookup is out of bounds (an
`IndexError`), while every index below 13 reads its band. -/
theorem C10_band_index_guard (m : S2ObsModel) (bandIndex : ℕ) :
    BAND_NAMES.length = 13
    ∧ (getRawBandData m bandIndex = .error .valueError ↔ 13 < bandIndex)
    ∧ getRawBandData m 13 = .error .indexError
    ∧ ∀ i : Fin 13, getRawBandData m i.val = .ok (m.rawByName (BAND_NAMES.getD i.val "")) := by
  refine ⟨rfl, ⟨?_, ?_⟩, rfl, ?_⟩
  · intro h
    by_contra hle
    push_neg at hle
    interval_cases bandIndex <;> simp [getRawBandData, BAND_NAMES] at h
  · intro h
    have hgt : bandIndex > BAND_NAMES.length := by
      simpa [show BAND_NAMES.length = 13 from rfl] using h
    simp [getRawBandData, hgt]
  · intro i
    fin_cases i <;> rfl

/-- Claim C6: when the auxiliary provider's listing of the emulator folder
is empty, `_prepare_band_emulators` returns `None` for every target
geometry instead of raising an error. -/
theorem C6_empty_catalog_degrades (sza saa vza vaa : ℚ) :
    prepareBandEmulators [] sza saa vza vaa = .ok none := rfl

/-- Claim C3: with no resampling mode set, the engine computes for source
and destination grid the density measure of the specification — the
product over both axes of the bounds' extent mapped into that grid's
coordinate system divided by that axis's resolution — and selects
`'bilinear'` exactly when the destination measure strictly exceeds the
source measure, `'average'` otherwise. -/
theorem C3_resampling_auto_selection (toSource toDest : ℚ × ℚ → ℚ × ℚ)
    (d : DatasetModel) (x0 y0 x1 y1 xRes yRes : ℚ) :
    (chosenResampling none toSource toDest d [x0, y0, x1, y1] xRes yRes = "bilinear" ↔
      specDensityMeasure (transformCoordinates toDest [x0, y0, x1, y1]) xRes yRes >
        specDensityMeasure (transformCoordinates toSource [x0, y0, x1, y1])
          (getTargetResolutions d).1 (getTargetResolutions d).2)
    ∧ (chosenResampling none toSource toDest d [x0, y0, x1, y1] xRes yRes = "average" ↔
      ¬(specDensityMeasure (transformCoordinates toDest [x0, y0, x1, y1]) xRes yRes >
        specDensityMeasure (transformCoordinates toSource [x0, y0, x1, y1])
          (getTargetResolutions d).1 (getTargetResolutions d).2)) := by
  have hds : ∀ c xr yr, getDistMeasure c xr yr = specDensityMeasure c xr yr :=
    fun _ _ _ => rfl
  by_cases hup :
      specDensityMeasure (transformCoordinates toDest [x0, y0, x1, y1]) xRes yRes >
        specDensityMeasure (transformCoordinates toSource [x0, y0, x1, y1])
          (getTargetResolutions d).1 (getTargetResolutions d).2 <;>
    simp [chosenResampling, getResampling, needToSampleUp, hds, hup]

/-- Claim C5: `read_granule` returns the all-`None` sextuple, without
raising, in exactly two cases — when no cloud-probability pixel is at or
below the threshold, and when the mask refined by positivity over the
selected reflectance bands has no true pixel. -/
theorem C5_read_granule_none_cases (g : GranuleInputs) (cosdeg : ℚ → ℚ) :
    readGranule g cosdeg = none ↔
      countTrue (granuleCloudMask g) = 0 ∨ countTrue (granuleRefinedMask g) = 0 := by
  rw [readGranule]
  by_cases h1 : countTrue (granuleCloudMask g) = 0
  · simp [h1]
  · by_cases h2 : countTrue (granuleRefinedMask g) = 0 <;> simp [h1, h2]

/-- Claim C4: on a non-empty catalog the selector uses `|vaa - saa|` as
target relative azimuth, and returns the entry at the first catalog index
in the intersection of the three per-axis equality masks, where each
axis's mask marks the entries equal to the catalog value closest to the
target by absolute difference (the `closestTo` conjuncts state that
minimality); on the three-file scenario catalog with target
`sza = 21, vza = 11, raa = 6` it selects catalog index 0 (see the witness). -/
theorem C4_emulator_selection (files : List EmuFile) (sza saa vza vaa : ℚ) (i : ℕ)
    (hne : files ≠ []) :
    (prepareBandEmulators files sza saa vza vaa = .ok (some i) ↔
      (i < files.length
        ∧ satAt files sza vza (|vaa - saa|) i = true
        ∧ ∀ j, j < i → satAt files sza vza (|vaa - saa|) j = false))
    ∧ (closestTo sza (files.map EmuFile.sza) ∈ files.map EmuFile.sza
        ∧ ∀ v ∈ files.map EmuFile.sza,
            |closestTo sza (files.map EmuFile.sza) - sza| ≤ |v - sza|)
    ∧ (closestTo vza (files.map EmuFile.vza) ∈ files.map EmuFile.vza
        ∧ ∀ v ∈ files.map EmuFile.vza,
            |closestTo vza (files.map EmuFile.vza) - vza| ≤ |v - vza|)
    ∧ (closestTo (|vaa - saa|) (files.map EmuFile.raa) ∈ files.map EmuFile.raa
        ∧ ∀ v ∈ files.map EmuFile.raa,
            |closestTo (|vaa - saa|) (files.map EmuFile.raa) - (|vaa - saa|)| ≤ |v - (|vaa - saa|)|) := by
  have hlen : ¬files.length = 0 := by
    simpa [List.length_eq_zero] using hne
  refine ⟨?_, closestTo_spec _ _ (by simpa using hne), closestTo_spec _ _ (by simpa using hne),
    closestTo_spec _ _ (by simpa using hne)⟩
  constructor
  · intro h
    rw [prepareBandEmulators, if_neg hlen] at h
    cases hf : firstFrom (satAt files sza vza (|vaa - saa|)) 0 files.length with
    | none => rw [hf] at h; cases h
    | some k =>
      rw [hf] at h
      injection h with h
      injection h with h
      subst h
      obtain ⟨-, h2, h3, h4⟩ := (firstFrom_eq_some _ _ 0 k).mp hf
      exact ⟨by omega, h3, fun j hj => h4 j (Nat.zero_le j) hj⟩
  · rintro ⟨h1, h2, h3⟩
    have hf : firstFrom (satAt files sza vza (|vaa - saa|)) 0 files.length = some i :=
      (firstFrom_eq_some _ _ 0 i).mpr ⟨Nat.zero_le i, by omega, h2,
        fun j _ hj => h3 j hj⟩
    rw [prepareBandEmulators, if_neg hlen, hf]

/-- Witness for C4: the end-to-end scenario — catalog
`(vza, sza, raa) = (10, 20, 30), (10, 25, 35), (15, 20, 30)`, target
`sza = 21, saa = 0, vza = 11, vaa = 6` (so target `raa = 6`) — selects
catalog index 0. -/
theorem C4_emulator_selection_witness :
    prepareBandEmulators scenarioCatalog 21 0 11 6 = .ok (some 0) := by
  refine ((C4_emulator_selection scenarioCatalog 21 0 11 6 0 (by simp [scenarioCatalog])).1).mpr
    ⟨by simp [scenarioCatalog], ?_, fun j hj => by omega⟩
  norm_num [satAt, closestTo, argminIdx, scenarioCatalog]

/-- Claim C1 (evaluation at the failing input): at an invalid pixel
`get_band_data`'s uncertainty matrix carries the infinite diagonal entry
`1/0²` — not the zero contribution the claim states — while at valid
pixels of constant scaled reflectance `1` every diagonal entry is
`1/(0.05·1)² = 400` and all other entries of the diagonal matrix are zero
by construction. -/
theorem C1_uncertainty_invalid_pixel_is_inf :
    getBandData cm1 0 true = .ok
      { observations := [0], uncertainty := some { n := 1, diag := [NPVal.inf] },
        mask := [false], metaData := [], emulator := none }
    ∧ DiagMat.entry { n := 1, diag := [NPVal.inf] } 0 0 = NPVal.inf
    ∧ NPVal.inf ≠ NPVal.fin 0
    ∧ getBandData cm1valid 0 true = .ok
      { observations := [1, 1],
        uncertainty := some { n := 2, diag := [NPVal.fin 400, NPVal.fin 400] },
        mask := [true, true], metaData := [], emulator := none }
    ∧ npRecipSq (1 * (5 / 100)) = NPVal.fin 400
    ∧ DiagMat.entry { n := 2, diag := [NPVal.fin 400, NPVal.fin 400] } 0 1 = NPVal.fin 0 := by
  refine ⟨?_, rfl, by simp, ?_, ?_, rfl⟩
  · simp [getBandData, getRawBandData, getBandEmulator, cm1, BAND_NAMES, NO_DATA_VALUES,
      getUncertainty, rMatList, npRecipSq]
  · simp [getBandData, getRawBandData, getBandEmulator, cm1valid, BAND_NAMES, NO_DATA_VALUES,
      getUncertainty, rMatList, npRecipSq]
    norm_num
  · simp [npRecipSq]
    norm_num

/-- Claim C2: every `ObservationData` that `get_band_data` returns has a
mask of the same length as its observations; every pixel whose mask is
false holds the band's configured no-data value; every pixel whose mask is
true holds the strictly positive raw value divided by 10000, which is
positive. -/
theorem C2_mask_no_data_invariant (m : S2ObsModel) (bandIndex : ℕ) (u : Bool)
    (od : ObservationData) (h : getBandData m bandIndex u = .ok od) :
    od.mask.length = od.observations.length
    ∧ ∀ i, i < od.mask.length →
        (od.mask.getD i false = false →
          od.observations.getD i 0 = m.noDataValues.getD bandIndex 0)
        ∧ (od.mask.getD i false = true →
          0 < od.observations.getD i 0
          ∧ od.observations.getD i 0
              = (m.rawByName (BAND_NAMES.getD bandIndex "")).getD i 0 / 10000
          ∧ 0 < (m.rawByName (BAND_NAMES.getD bandIndex "")).getD i 0) := by
  rw [getBandData] at h
  cases hr : getRawBandData m bandIndex with
  | error e => rw [hr] at h; cases h
  | ok raw =>
    rw [hr] at h
    cases he : getBandEmulator m bandIndex with
    | error e => simp only [he] at h; cases h
    | ok emu =>
      simp only [he] at h
      injection h with h
      subst h
      have hraw : raw = m.rawByName (BAND_NAMES.getD bandIndex "") := by
        rw [getRawBandData] at hr
        by_cases hgt : bandIndex > BAND_NAMES.length
        · rw [if_pos hgt] at hr; cases hr
        · rw [if_neg hgt] at hr
          cases hname : BAND_NAMES.get? bandIndex with
          | none => rw [hname] at hr; cases hr
          | some name =>
            rw [hname] at hr
            injection hr with hr
            rw [← hr, getD_of_get?_eq_some BAND_NAMES bandIndex name "" hname]
      constructor
      · simp
      · intro i hi
        have hlen : i < raw.length := by simpa using hi
        have hmask : (raw.map (fun v => decide (0 < v))).getD i false
            = decide (0 < raw.getD i 0) := getD_map_of_lt _ raw i false 0 hlen
        have hobs : (raw.map
              (fun v => if 0 < v then v / 10000 else m.noDataValues.getD bandIndex 0)).getD i 0
            = if 0 < raw.getD i 0 then raw.getD i 0 / 10000
              else m.noDataValues.getD bandIndex 0 := getD_map_of_lt _ raw i 0 0 hlen
        constructor
        · intro hfalse
          rw [hmask] at hfalse
          have : ¬(0 < raw.getD i 0) := by simpa using hfalse
          simp only [hobs, if_neg this]
        · intro htrue
          rw [hmask] at htrue
          have hpos : 0 < raw.getD i 0 := by simpa using htrue
          refine ⟨?_, ?_, ?_⟩
          · simp only [hobs, if_pos hpos]
            positivity
          · rw [← hraw, hobs, if_pos hpos]
          · rw [← hraw]
            exact hpos

/-- Witness for C2 at the concrete instance `wm2` (raw pixels
`[10000, 0, 25]`, band index 0). -/
theorem C2_mask_no_data_invariant_witness :
    wod2.mask.length = wod2.observations.length
    ∧ ∀ i, i < wod2.mask.length →
        (wod2.mask.getD i false = false →
          wod2.observations.getD i 0 = wm2.noDataValues.getD 0 0)
        ∧ (wod2.mask.getD i false = true →
          0 < wod2.observations.getD i 0
          ∧ wod2.observations.getD i 0
              = (wm2.rawByName (BAND_NAMES.getD 0 "")).getD i 0 / 10000
          ∧ 0 < (wm2.rawByName (BAND_NAMES.getD 0 "")).getD i 0) :=
  C2_mask_no_data_invariant wm2 0 false wod2 (by
    simp [getBandData, getRawBandData, getBandEmulator, wm2, wod2, BAND_NAMES, NO_DATA_VALUES]
    norm_num)

/-- Counterexample to claim C7: the string
`"B03_sur.tifB02_sur.tif"` contains the canonical band name
`"B03_sur.tif"` (index 1), yet `get_band_data_by_name` does not return
`get_band_data(1)` for it, because the loop resolves the *first* listed
canonical name contained in the string — here `"B02_sur.tif"` (index 0) —
and on `mdl7` bands 0 and 1 hold different data. -/
theorem C7_counterexample :
    containsName "B03_sur.tif" "B03_sur.tifB02_sur.tif" = true
    ∧ getBandDataByName mdl7 "B03_sur.tifB02_sur.tif" false
        ≠ some (getBandData mdl7 1 false) := by
  refine ⟨by decide, ?_⟩
  have hidx : firstMatchIdx (fun base => containsName base "B03_sur.tifB02_sur.tif") BAND_NAMES
      = some 0 := by decide
  have h0 : getBandData mdl7 0 false = .ok
      { observations := [1], uncertainty := none, mask := [true], metaData := [],
        emulator := none } := by
    simp [getBandData, getRawBandData, getBandEmulator, mdl7, BAND_NAMES, NO_DATA_VALUES]
  have h1 : getBandData mdl7 1 false = .ok
      { observations := [2], uncertainty := none, mask := [true], metaData := [],
        emulator := none } := by
    simp [getBandData, getRawBandData, getBandEmulator, mdl7, BAND_NAMES, NO_DATA_VALUES]
    norm_num
  rw [getBandDataByName, hidx]
  simp only [h0, h1]
  intro hcontra
  injection hcontra with hcontra
  injection hcontra with hcontra
  have := congrArg ObservationData.observations hcontra
  simp at this

/-- Claim C7 (amended): `get_band_data_by_name` agrees with
`get_band_data` at index `i` for every string whose *first* canonical-name
match in `BAND_NAMES` order is the name at `i`; the unrestricted claim —
any string containing the name — fails when an earlier-listed canonical
name also occurs in the string (see the counterexample). -/
theorem C7_amended_name_index_consistency (m : S2ObsModel) (s : String) (u : Bool) (i : ℕ)
    (h : firstMatchIdx (fun base => containsName base s) BAND_NAMES = some i) :
    getBandDataByName m s u = some (getBandData m i u)
    ∧ containsName (BAND_NAMES.getD i "") s = true
    ∧ ∀ j, j < i → containsName (BAND_NAMES.getD j "") s = false := by
  obtain ⟨h1, h2, h3⟩ := firstMatchIdx_spec (fun base => containsName base s) BAND_NAMES i "" h
  exact ⟨by rw [getBandDataByName, h], h2, h3⟩

/-- Witness for the amended C7: `"/vsimem/B03_sur.tif"` contains
`"B03_sur.tif"` and no earlier-listed canonical band name, and resolves to
band index 1. -/
theorem C7_amended_name_index_consistency_witness :
    getBandDataByName mdl7 "/vsimem/B03_sur.tif" false = some (getBandData mdl7 1 false)
    ∧ containsName (BAND_NAMES.getD 1 "") "/vsimem/B03_sur.tif" = true
    ∧ ∀ j, j < 1 → containsName (BAND_NAMES.getD j "") "/vsimem/B03_sur.tif" = false :=
  C7_amended_name_index_consistency mdl7 "/vsimem/B03_sur.tif" false 1 (by decide)

/-- Counterexample to claim C8: two file references with different
detected product types do not make construction fail — `__init__`
succeeds and stores the type detected for the *first* reference alone,
and the creator's `can_read` accepts the pair as well. -/
theorem C8_counterexample :
    s2Init env8 refs8 = .ok { dataType := "aws_s2_l2" }
    ∧ env8.validType "refA" ≠ env8.validType "refB"
    ∧ canRead awsValid8 s2l2Valid8 refs8 = true := by
  refine ⟨by decide, by decide, by decide⟩

/-- Claim C8 (amended): construction performs no product-type
homogeneity check — whenever every reference has a metadata file,
`__init__` succeeds and the instance's type is
`get_valid_type(file_refs[0].url)`, derived from the first reference
alone, whatever the other references' types are. -/
theorem C8_amended_first_ref_type (env : S2InitEnv) (f0 : FileRef) (rest : List FileRef)
    (h : (f0 :: rest).all (fun r => env.hasMetadata r.url) = true) :
    s2Init env (f0 :: rest) = .ok { dataType := env.validType f0.url } := by
  rw [s2Init, if_pos h]

/-- Witness for the amended C8, at the mixed-type input `refs8`. -/
theorem C8_amended_first_ref_type_witness :
    s2Init env8 ({ url := "refA", startTime := "t0", endTime := "t1", mimeType := "unknown" }
        :: [{ url := "refB", startTime := "t0", endTime := "t1", mimeType := "unknown" }])
      = .ok { dataType := env8.validType "refA" } :=
  C8_amended_first_ref_type env8
    { url := "refA", startTime := "t0", endTime := "t1", mimeType := "unknown" }
    [{ url := "refB", startTime := "t0", endTime := "t1", mimeType := "unknown" }] (by decide)

/-- Claim C9 (evaluation at the failing input): two distinct instances
both reference the one module-level `NO_DATA_VALUES` list, so
`set_no_data_value(0, 5)` on the first instance changes the table the
second instance observes — the claimed per-instance isolation fails
(while `BAND_NAMES`, the name→index table, is a separate untouched
constant). -/
theorem C9_no_data_table_is_shared :
    s2NewInst 1 ≠ s2NewInst 2
    ∧ (s2NewInst 1).noDataLoc = (s2NewInst 2).noDataLoc
    ∧ readNoData initialHeap (s2NewInst 2) = NO_DATA_VALUES
    ∧ readNoData (setNoDataValue initialHeap (s2NewInst 1) 0 5) (s2NewInst 2)
        = NO_DATA_VALUES.set 0 5
    ∧ readNoData (setNoDataValue initialHeap (s2NewInst 1) 0 5) (s2NewInst 2)
        ≠ readNoData initialHeap (s2NewInst 2) := by
  refine ⟨by decide, rfl, rfl, rfl, ?_⟩
  intro h
  have := congrArg (fun l => l.getD 0 (0 : ℚ)) h
  norm_num [NO_DATA_VALUES, readNoData, setNoDataValue, initialHeap, s2NewInst, BAND_NAMES] at this

end MultiplyCore
